import Mathlib

/-!
Verification of the PracticeApp record repository
(src/main.py and src/edit_window.py).

Modelling conventions:
* A calendar date (the ISO `YYYY-MM-DD` string the code stores and parses via
  `strftime`/`strptime`) is modelled as an integer day number; the ISO encoding
  is a bijection between valid dates and day numbers, and `json` round-trips
  strings faithfully, so nothing is lost by working with the day number.
  Python `None` for `last_practiced` is `Option.none`.
* The JSON file content is a `List StoredRecord` (its list of objects); a
  missing file is `Option.none` at the `load_data` boundary.
* A Qt confirmation dialog's answer is a `Bool` (`true` = Yes / OK / Add).
* In-place mutation of a record (a Python dict held inside `self.data`) is
  modelled as replacing the element at its index in the list.
-/

/-- An in-memory practice record: the dict kept in `self.data` in `main.py`.
Every record at rest has all five keys (`load_data` fills the two optional
booleans, `on_add` builds complete dicts). -/
structure Record where
  name : String
  practice_count : Int
  last_practiced : Option Int
  isSong : Bool
  was_performed : Bool
deriving Repr, DecidableEq

/-- A record object as it sits in the JSON file `data.json`: the keys
`isSong` and `was_performed` may be absent (files written by older
versions), which `Option.none` models. -/
structure StoredRecord where
  name : String
  practice_count : Int
  last_practiced : Option Int
  isSong : Option Bool
  was_performed : Option Bool
deriving Repr, DecidableEq

/-- Serialization of one in-memory record by `save_data` (main.py:230-233):
`json.dump` writes every key the dict has, and in-memory dicts have all
five keys. -/
def saveRecord (r : Record) : StoredRecord :=
  { name := r.name
    practice_count := r.practice_count
    last_practiced := r.last_practiced
    isSong := some r.isSong
    was_performed := some r.was_performed }

/-- `save_data` (main.py:230-233): the whole collection is rewritten as a
list of flat field maps. -/
def save_data (data : List Record) : List StoredRecord :=
  data.map saveRecord

/-- The per-record defaulting loop in `load_data` (main.py:221-226): a
record missing `was_performed` gets `False`, a record missing `isSong`
gets `False`; all other fields are taken as stored. -/
def loadRecord (s : StoredRecord) : Record :=
  { name := s.name
    practice_count := s.practice_count
    last_practiced := s.last_practiced
    isSong := s.isSong.getD false
    was_performed := s.was_performed.getD false }

/-- `load_data` (main.py:216-228): if the file exists (`some file`), parse it
and default the two optional booleans; if it does not exist (`none`),
return the empty list. -/
def load_data (file : Option (List StoredRecord)) : List Record :=
  match file with
  | none => []
  | some l => l.map loadRecord

/-- Python `str.strip()` as used on the typed name (`name_input.text().strip()`,
main.py:466): remove whitespace from both ends of the string. -/
def strip (s : String) : String :=
  String.mk (((s.data.dropWhile Char.isWhitespace).reverse.dropWhile Char.isWhitespace).reverse)

/-- The fresh record literal built in `on_add` (main.py:470-476). -/
def newRecord (name : String) (is_song wasPerf : Bool) : Record :=
  { name := name
    practice_count := 0
    last_practiced := none
    isSong := is_song
    was_performed := wasPerf }

/-- `on_add` (main.py:465-480): strip the typed name; only when the stripped
name is truthy (non-empty) append the fresh record. An empty stripped name
leaves the data untouched (and the dialog open). -/
def on_add (data : List Record) (raw : String) (is_song wasPerf : Bool) : List Record :=
  let name := strip raw
  if name = "" then data
  else data ++ [newRecord name is_song wasPerf]

/-- Replace the record at index `i` by `f` of it; out-of-range indices leave
the list unchanged. This models Python's in-place mutation of the dict
`self.record` / `record` that lives at position `i` of `self.data`. -/
def updateAt (data : List Record) (i : Nat) (f : Record → Record) : List Record :=
  match data[i]? with
  | some r => data.set i (f r)
  | none => data

/-- The mutation applied after a Yes reply in `on_name_button_click`
(main.py:525-526) and in `on_add_practice_session` (edit_window.py:153-154):
`practice_count += 1` and `last_practiced = today`. -/
def increment_practice (r : Record) (today : Int) : Record :=
  { r with practice_count := r.practice_count + 1, last_practiced := some today }

/-- `on_name_button_click` (main.py:518-528) acting on the record at index
`i`; `reply` is the answer to the Add Practice Session question. -/
def on_name_button_click (data : List Record) (i : Nat) (reply : Bool) (today : Int) :
    List Record :=
  if reply then updateAt data i (fun r => increment_practice r today) else data

/-- `on_add_practice_session` (edit_window.py:144-157) acting on the record
at index `i`; `reply` is the answer to the confirmation question. -/
def on_add_practice_session (data : List Record) (i : Nat) (reply : Bool) (today : Int) :
    List Record :=
  if reply then updateAt data i (fun r => increment_practice r today) else data

/-- The `on_ok` handler of the date picker (edit_window.py:126-134): store the
selected date, and bump a zero `practice_count` to 1. -/
def set_last_practiced (r : Record) (d : Int) : Record :=
  let r1 := { r with last_practiced := some d }
  if r1.practice_count = 0 then { r1 with practice_count := 1 } else r1

/-- The date-picker dialog of `on_edit_last_practiced` (edit_window.py:101-142):
OK (`confirmed = true`) runs `on_ok` on the record at index `i`; Cancel
(edit_window.py:136-137) only rejects the dialog and touches nothing. -/
def date_dialog (data : List Record) (i : Nat) (confirmed : Bool) (d : Int) : List Record :=
  if confirmed then updateAt data i (fun r => set_last_practiced r d) else data

/-- `toggle_is_song` (edit_window.py:89-93): sets `isSong` of the open record
to the checkbox state, immediately — no confirmation dialog is involved. -/
def toggle_is_song_at (data : List Record) (i : Nat) (checked : Bool) : List Record :=
  updateAt data i (fun r => { r with isSong := checked })

/-- `toggle_was_performed` (edit_window.py:95-99): sets `was_performed` of the
open record to the checkbox state, immediately. -/
def toggle_was_performed_at (data : List Record) (i : Nat) (checked : Bool) : List Record :=
  updateAt data i (fun r => { r with was_performed := checked })

/-- `self.app.data.remove(self.record)` (edit_window.py:168): Python
`list.remove` deletes the first element comparing equal to the argument and
raises `ValueError` when no element does. -/
def list_remove (data : List Record) (r : Record) : Except String (List Record) :=
  if r ∈ data then .ok (data.erase r) else .error "ValueError"

/-- `on_delete` (edit_window.py:159-171): a Yes reply runs `list.remove` on
the repository; a No reply leaves it untouched. -/
def on_delete (data : List Record) (r : Record) (reply : Bool) :
    Except String (List Record) :=
  if reply then list_remove data r else .ok data

/-- `reset_table` (main.py:492-509): the data is cleared only when both
sequential confirmations are answered Yes; the second question is only
asked after the first Yes. -/
def reset_table (data : List Record) (r1 r2 : Bool) : List Record :=
  if r1 then (if r2 then [] else data) else data

/-- The two ways the Add Record dialog (main.py:402-485) can end. -/
inductive AddDialogAction where
  | clickAdd
  | clickCancel
deriving Repr, DecidableEq

/-- The Add Record dialog: Cancel is wired to `dialog.reject` (main.py:483)
and runs no repository code; Add runs `on_add`. -/
def add_dialog (data : List Record) (raw : String) (is_song wasPerf : Bool) :
    AddDialogAction → List Record
  | .clickAdd => on_add data raw is_song wasPerf
  | .clickCancel => data

/-- Closing the EditWindow without pressing any of its buttons: the class
defines no close/reject handler (edit_window.py has none), so no repository
code runs. -/
def close_edit_window (data : List Record) : List Record := data

/-- The Last Practiced cell text computed in `add_record_to_table`
(main.py:338-349): `None` gives `"Never"`, today's date gives `"Today"`,
and otherwise `(today - last_practiced_date).days` is interpolated into
`"N day(s) ago"`. -/
def last_practiced_text (today : Int) (lp : Option Int) : String :=
  match lp with
  | none => "Never"
  | some d => if d = today then "Today" else toString (today - d) ++ " day(s) ago"

/-- Modelled from the spec (§4.3, §8): `None` maps to the label `"Never"`;
a date on the same calendar day as now maps to `"Today"`; otherwise the
day-granularity difference between now and the stored date is shown as
`"N day(s) ago"`. -/
def days_since_spec (today : Int) (lp : Option Int) : String :=
  match lp with
  | none => "Never"
  | some d => if today - d = 0 then "Today" else toString (today - d) ++ " day(s) ago"

/-- `last_practiced_key` inside `populate_table` (main.py:257-270): a record
never practiced gets `float('inf')`, modelled as `⊤`; otherwise the key is
the elapsed-day count `today - last_practiced`. -/
def last_practiced_key (today : Int) (r : Record) : WithTop Int :=
  match r.last_practiced with
  | none => ⊤
  | some d => ((today - d : Int) : WithTop Int)

/-- `populate_table`'s sort of the repository by the Last Practiced key with
`reverse=False` (main.py:279). Python `list.sort` is stable; Mathlib's
`insertionSort` is the matching stable sort. -/
def sort_last_practiced_asc (today : Int) (data : List Record) : List Record :=
  data.insertionSort (fun a b => last_practiced_key today a ≤ last_practiced_key today b)

/-- `populate_table`'s sort with `reverse=True` (descending indicator):
stable sort by the reversed comparison. -/
def sort_last_practiced_desc (today : Int) (data : List Record) : List Record :=
  data.insertionSort (fun a b => last_practiced_key today b ≤ last_practiced_key today a)

/-! Sample records used by witnesses and counterexamples. -/

/-- A record that was never practiced. -/
def recNever : Record :=
  { name := "Autumn Leaves", practice_count := 0, last_practiced := none,
    isSong := true, was_performed := false }

/-- A second never-practiced record. -/
def recNever2 : Record :=
  { name := "Blue Bossa", practice_count := 3, last_practiced := none,
    isSong := true, was_performed := true }

/-- A record practiced on day 0. -/
def recDay0 : Record :=
  { name := "Scales", practice_count := 5, last_practiced := some 0,
    isSong := false, was_performed := false }

/-! ## Theorems -/

/-- C1: for a name non-empty after trimming, confirming the Add Record dialog
appends exactly one record, with `practice_count = 0` and
`last_practiced = none`; for an empty-after-trim name the repository is
unchanged. -/
theorem add_valid_name_appends (data : List Record) (raw : String) (is_song wasPerf : Bool) :
    (strip raw ≠ "" →
      (on_add data raw is_song wasPerf).length = data.length + 1 ∧
      on_add data raw is_song wasPerf = data ++ [newRecord (strip raw) is_song wasPerf] ∧
      (newRecord (strip raw) is_song wasPerf).practice_count = 0 ∧
      (newRecord (strip raw) is_song wasPerf).last_practiced = none) ∧
    (strip raw = "" → on_add data raw is_song wasPerf = data) := by
  constructor
  · intro h
    refine ⟨?_, ?_, rfl, rfl⟩
    · simp [on_add, h]
    · simp [on_add, h]
  · intro h
    simp [on_add, h]

/-- Witness for C1 at a concrete non-empty name and at a whitespace-only name. -/
theorem add_valid_name_appends_witness :
    (on_add [] " Moonlight Sonata " true false).length = ([] : List Record).length + 1 ∧
    on_add [recDay0] "   " true false = [recDay0] :=
  ⟨((add_valid_name_appends [] " Moonlight Sonata " true false).1 (by decide)).1,
   (add_valid_name_appends [recDay0] "   " true false).2 (by decide)⟩

/-- Reading back the updated index after `updateAt`. -/
theorem updateAt_getElem?_self (data : List Record) (i : Nat) (f : Record → Record)
    (r : Record) (h : data[i]? = some r) : (updateAt data i f)[i]? = some (f r) := by
  simp only [updateAt, h]
  exact List.getElem?_set_self (List.getElem?_eq_some.mp h).1

/-- `updateAt` leaves every other index alone. -/
theorem updateAt_getElem?_ne (data : List Record) (i j : Nat) (f : Record → Record)
    (h : i ≠ j) : (updateAt data i f)[j]? = data[j]? := by
  unfold updateAt
  cases hd : data[i]? with
  | none => rfl
  | some r => exact List.getElem?_set_ne h

/-- C2: once the confirmation is answered Yes, adding a practice session —
whether through the name-column click (`on_name_button_click`) or through the
edit dialog (`on_add_practice_session`) — replaces the record at index `i` by
its `increment_practice` image, whose `practice_count` is exactly one larger
and whose `last_practiced` is the current date. -/
theorem increment_practice_adds_one (data : List Record) (i : Nat) (today : Int)
    (r : Record) (h : data[i]? = some r) :
    (on_name_button_click data i true today)[i]? = some (increment_practice r today) ∧
    (on_add_practice_session data i true today)[i]? = some (increment_practice r today) ∧
    (increment_practice r today).practice_count = r.practice_count + 1 ∧
    (increment_practice r today).last_practiced = some today :=
  ⟨updateAt_getElem?_self data i _ r h, updateAt_getElem?_self data i _ r h, rfl, rfl⟩

/-- Witness for C2 on a one-record repository at day 7. -/
theorem increment_practice_adds_one_witness :
    (on_name_button_click [recDay0] 0 true 7)[0]? = some (increment_practice recDay0 7) ∧
    (on_add_practice_session [recDay0] 0 true 7)[0]? = some (increment_practice recDay0 7) ∧
    (increment_practice recDay0 7).practice_count = recDay0.practice_count + 1 ∧
    (increment_practice recDay0 7).last_practiced = some 7 :=
  increment_practice_adds_one [recDay0] 0 7 recDay0 rfl

/-- C3: confirming the date picker stores the chosen date; a record whose
`practice_count` was 0 ends at 1, and a positive `practice_count` is kept. -/
theorem set_last_practiced_sets_date (r : Record) (d : Int) :
    (set_last_practiced r d).last_practiced = some d ∧
    (r.practice_count = 0 → (set_last_practiced r d).practice_count = 1) ∧
    (0 < r.practice_count → (set_last_practiced r d).practice_count = r.practice_count) := by
  unfold set_last_practiced
  by_cases h : r.practice_count = 0
  · refine ⟨by simp [h], fun _ => by simp [h], fun hpos => absurd h (by omega)⟩
  · refine ⟨by simp [h], fun h0 => absurd h0 h, fun _ => by simp [h]⟩

/-- Witness for C3 on a zero-count record and a positive-count record. -/
theorem set_last_practiced_sets_date_witness :
    (set_last_practiced recNever 5).practice_count = 1 ∧
    (set_last_practiced recDay0 5).practice_count = recDay0.practice_count ∧
    (set_last_practiced recDay0 5).last_practiced = some 5 :=
  ⟨(set_last_practiced_sets_date recNever 5).2.1 rfl,
   (set_last_practiced_sets_date recDay0 5).2.2 (by decide),
   (set_last_practiced_sets_date recDay0 5).1⟩

/-- C4: saving a collection and loading it back returns the same collection,
field for field, for collections of any size, dates present or absent. -/
theorem save_load_roundtrip (data : List Record) :
    load_data (some (save_data data)) = data := by
  induction data with
  | nil => rfl
  | cons r t ih => simpa [load_data, save_data, loadRecord, saveRecord] using ih

/-- C5: loading preserves the stored fields while defaulting a missing
`isSong` or `was_performed` to `false`, and loading a missing file yields
the empty collection. -/
theorem load_defaults_missing_flags (file : List StoredRecord) (i : Nat)
    (s : StoredRecord) (h : file[i]? = some s) :
    (load_data (some file))[i]? = some (loadRecord s) ∧
    (s.isSong = none → (loadRecord s).isSong = false) ∧
    (s.was_performed = none → (loadRecord s).was_performed = false) ∧
    load_data none = [] := by
  refine ⟨?_, ?_, ?_, rfl⟩
  · simp [load_data, h]
  · intro hs; simp [loadRecord, hs]
  · intro hs; simp [loadRecord, hs]

/-- A legacy stored record missing both optional boolean keys. -/
def storedLegacy : StoredRecord :=
  { name := "Misty", practice_count := 2, last_practiced := some 3,
    isSong := none, was_performed := none }

/-- Witness for C5 on a one-record legacy file. -/
theorem load_defaults_missing_flags_witness :
    (load_data (some [storedLegacy]))[0]? = some (loadRecord storedLegacy) ∧
    (loadRecord storedLegacy).isSong = false ∧
    (loadRecord storedLegacy).was_performed = false ∧
    load_data none = [] :=
  ⟨(load_defaults_missing_flags [storedLegacy] 0 storedLegacy rfl).1,
   (load_defaults_missing_flags [storedLegacy] 0 storedLegacy rfl).2.1 rfl,
   (load_defaults_missing_flags [storedLegacy] 0 storedLegacy rfl).2.2.1 rfl,
   (load_defaults_missing_flags [storedLegacy] 0 storedLegacy rfl).2.2.2⟩

/-- C6 counterexample: on a repository holding one non-song record, toggling
the Is Song checkbox in the edit dialog and then closing the dialog without
confirming anything leaves the repository changed — the toggle mutated and
persisted the record immediately, with no confirmation gate. -/
theorem edit_dialog_abandon_mutates :
    close_edit_window (toggle_is_song_at [recDay0] 0 true) ≠ [recDay0] := by
  decide

/-- C6 amended: cancelling the Add dialog, answering No to the delete and
add-practice-session confirmations, cancelling the date picker, and declining
either reset confirmation all leave the repository unchanged; but a checkbox
toggle inside the edit dialog mutates the repository immediately, without any
confirmation, so an edit dialog abandoned after a toggle leaves it changed. -/
theorem abandoned_modals_no_side_effect (data : List Record) (raw : String)
    (is_song wasPerf : Bool) (i : Nat) (r : Record) (b : Bool) (d today : Int)
    (r2 : Bool) :
    add_dialog data raw is_song wasPerf .clickCancel = data ∧
    on_delete data r false = .ok data ∧
    on_name_button_click data i false today = data ∧
    on_add_practice_session data i false today = data ∧
    date_dialog data i false d = data ∧
    reset_table data false r2 = data ∧
    reset_table data true false = data ∧
    (data[i]? = some r → r.isSong ≠ b →
      close_edit_window (toggle_is_song_at data i b) ≠ data) := by
  refine ⟨rfl, rfl, rfl, rfl, rfl, rfl, rfl, ?_⟩
  intro hr hb heq
  have heq2 : toggle_is_song_at data i b = data := heq
  have h1 : (toggle_is_song_at data i b)[i]? = some { r with isSong := b } :=
    updateAt_getElem?_self data i (fun x => { x with isSong := b }) r hr
  rw [heq2, hr] at h1
  have h2 : r = { r with isSong := b } := Option.some.inj h1
  exact hb (congrArg Record.isSong h2)

/-- Witness for C6 amended, at a one-record repository. -/
theorem abandoned_modals_no_side_effect_witness :
    add_dialog [recDay0] "x" true false .clickCancel = [recDay0] ∧
    on_delete [recDay0] recDay0 false = .ok [recDay0] ∧
    reset_table [recDay0] true false = [recDay0] ∧
    close_edit_window (toggle_is_song_at [recDay0] 0 true) ≠ [recDay0] :=
  ⟨(abandoned_modals_no_side_effect [recDay0] "x" true false 0 recDay0 true 0 0 true).1,
   (abandoned_modals_no_side_effect [recDay0] "x" true false 0 recDay0 true 0 0 true).2.1,
   (abandoned_modals_no_side_effect [recDay0] "x" true false 0 recDay0 true 0 0 true).2.2.2.2.2.2.1,
   (abandoned_modals_no_side_effect [recDay0] "x" true false 0 recDay0 true 0 0
      true).2.2.2.2.2.2.2 rfl (by decide)⟩

/-- C7 counterexample: a confirmed delete of a record that is not in the
repository raises `ValueError` (Python `list.remove`), instead of the claimed
error-free no-op. -/
theorem remove_absent_raises :
    on_delete [] recDay0 true = .error "ValueError" := rfl

/-- C7 amended: a confirmed delete removes the first record equal to the
argument, splitting the repository around that occurrence; when no equal
record is present, the call raises `ValueError` instead of being a no-op. -/
theorem remove_first_occurrence (data : List Record) (r : Record) :
    (r ∈ data → ∃ l₁ l₂, r ∉ l₁ ∧ data = l₁ ++ r :: l₂ ∧
      on_delete data r true = .ok (l₁ ++ l₂)) ∧
    (r ∉ data → on_delete data r true = .error "ValueError") := by
  constructor
  · intro h
    obtain ⟨l₁, l₂, hn, he, hr⟩ := List.exists_erase_eq h
    exact ⟨l₁, l₂, hn, he, by simp [on_delete, list_remove, h, hr]⟩
  · intro h
    simp [on_delete, list_remove, h]

/-- Witness for C7 amended: delete a present record and an absent one. -/
theorem remove_first_occurrence_witness :
    (∃ l₁ l₂, recNever ∉ l₁ ∧ ([recDay0, recNever] : List Record) = l₁ ++ recNever :: l₂ ∧
      on_delete [recDay0, recNever] recNever true = .ok (l₁ ++ l₂)) ∧
    on_delete [recDay0] recNever true = .error "ValueError" :=
  ⟨(remove_first_occurrence [recDay0, recNever] recNever).1 (by decide),
   (remove_first_occurrence [recDay0] recNever).2 (by decide)⟩

/-- A record's sort key is `⊤` exactly when it was never practiced. -/
theorem last_practiced_key_eq_top (today : Int) (r : Record) :
    last_practiced_key today r = ⊤ ↔ r.last_practiced = none := by
  cases h : r.last_practiced with
  | none => simp [last_practiced_key, h]
  | some d => simp [last_practiced_key, h]

/-- C8: in the table order sorted by the Last Practiced key, never-practiced
records (shown as "Never") sit at the largest-elapsed / oldest end in both
directions: ascending, every record after a never-practiced one is also
never-practiced (they form the tail of the display); descending, every record
before one is also never-practiced (they form the head of the display). -/
theorem never_sorts_to_largest_end (today : Int) (data : List Record)
    (i j : Nat) (hij : i < j) (a b : Record) :
    ((sort_last_practiced_asc today data)[i]? = some a →
      (sort_last_practiced_asc today data)[j]? = some b →
      a.last_practiced = none → b.last_practiced = none) ∧
    ((sort_last_practiced_desc today data)[i]? = some a →
      (sort_last_practiced_desc today data)[j]? = some b →
      b.last_practiced = none → a.last_practiced = none) := by
  constructor
  · intro ha hb hna
    haveI h1 : IsTotal Record
        (fun a b => last_practiced_key today a ≤ last_practiced_key today b) :=
      ⟨fun x y => le_total _ _⟩
    haveI h2 : IsTrans Record
        (fun a b => last_practiced_key today a ≤ last_practiced_key today b) :=
      ⟨fun x y z hxy hyz => le_trans hxy hyz⟩
    have hs := List.sorted_insertionSort
      (fun a b => last_practiced_key today a ≤ last_practiced_key today b) data
    obtain ⟨hi, hgi⟩ := List.getElem?_eq_some.mp ha
    obtain ⟨hj, hgj⟩ := List.getElem?_eq_some.mp hb
    simp only [sort_last_practiced_asc] at hgi hgj
    have hr := hs.rel_get_of_lt (a := ⟨i, hi⟩) (b := ⟨j, hj⟩) hij
    simp only [List.get_eq_getElem] at hr
    rw [hgi, hgj] at hr
    have hka : last_practiced_key today a = ⊤ := (last_practiced_key_eq_top today a).mpr hna
    rw [hka] at hr
    exact (last_practiced_key_eq_top today b).mp (top_le_iff.mp hr)
  · intro ha hb hnb
    haveI h1 : IsTotal Record
        (fun a b => last_practiced_key today b ≤ last_practiced_key today a) :=
      ⟨fun x y => le_total _ _⟩
    haveI h2 : IsTrans Record
        (fun a b => last_practiced_key today b ≤ last_practiced_key today a) :=
      ⟨fun x y z hxy hyz => le_trans hyz hxy⟩
    have hs := List.sorted_insertionSort
      (fun a b => last_practiced_key today b ≤ last_practiced_key today a) data
    obtain ⟨hi, hgi⟩ := List.getElem?_eq_some.mp ha
    obtain ⟨hj, hgj⟩ := List.getElem?_eq_some.mp hb
    simp only [sort_last_practiced_desc] at hgi hgj
    have hr := hs.rel_get_of_lt (a := ⟨i, hi⟩) (b := ⟨j, hj⟩) hij
    simp only [List.get_eq_getElem] at hr
    rw [hgi, hgj] at hr
    have hkb : last_practiced_key today b = ⊤ := (last_practiced_key_eq_top today b).mpr hnb
    rw [hkb] at hr
    exact (last_practiced_key_eq_top today a).mp (top_le_iff.mp hr)

/-- Witness for C8 on a three-record repository with two "Never" records. -/
theorem never_sorts_to_largest_end_witness :
    recNever2.last_practiced = none ∧ recNever.last_practiced = none :=
  ⟨(never_sorts_to_largest_end 4 [recNever, recDay0, recNever2] 1 2 (by decide)
      recNever recNever2).1 (by decide) (by decide) rfl,
   (never_sorts_to_largest_end 4 [recNever, recDay0, recNever2] 0 1 (by decide)
      recNever recNever2).2 (by decide) (by decide) rfl⟩

/-- C9: the "days since last practiced" cell text produced by
`add_record_to_table` agrees with the spec's derivation (`days_since_spec`):
no stored date shows "Never", the current calendar day shows "Today", and any
other stored date shows the day-granularity difference as "N day(s) ago". -/
theorem days_since_text_correct (today : Int) (lp : Option Int) :
    last_practiced_text today lp = days_since_spec today lp := by
  cases lp with
  | none => rfl
  | some d =>
    by_cases h : d = today
    · simp [last_practiced_text, days_since_spec, h]
    · have hd : today - d ≠ 0 := by omega
      simp [last_practiced_text, days_since_spec, h, hd]

/-- C10: toggling `isSong` (resp. `was_performed`) of the record at index `i`
changes only that one boolean of that one record — its name, practice count,
last-practiced date and other flag are kept — and every other record of the
repository is untouched. -/
theorem toggle_flag_frame (data : List Record) (i : Nat) (b : Bool) (r : Record)
    (h : data[i]? = some r) :
    ((toggle_is_song_at data i b)[i]? =
        some { name := r.name, practice_count := r.practice_count,
               last_practiced := r.last_practiced, isSong := b,
               was_performed := r.was_performed } ∧
      ∀ j, i ≠ j → (toggle_is_song_at data i b)[j]? = data[j]?) ∧
    ((toggle_was_performed_at data i b)[i]? =
        some { name := r.name, practice_count := r.practice_count,
               last_practiced := r.last_practiced, isSong := r.isSong,
               was_performed := b } ∧
      ∀ j, i ≠ j → (toggle_was_performed_at data i b)[j]? = data[j]?) :=
  ⟨⟨updateAt_getElem?_self data i _ r h, fun j hj => updateAt_getElem?_ne data i j _ hj⟩,
   ⟨updateAt_getElem?_self data i _ r h, fun j hj => updateAt_getElem?_ne data i j _ hj⟩⟩

/-- Witness for C10 on a two-record repository. -/
theorem toggle_flag_frame_witness :
    (toggle_is_song_at [recDay0, recNever] 0 true)[1]? =
      ([recDay0, recNever] : List Record)[1]? ∧
    (toggle_was_performed_at [recDay0, recNever] 0 true)[0]? =
      some { name := recDay0.name, practice_count := recDay0.practice_count,
             last_practiced := recDay0.last_practiced, isSong := recDay0.isSong,
             was_performed := true } :=
  ⟨(toggle_flag_frame [recDay0, recNever] 0 true recDay0 rfl).1.2 1 (by decide),
   (toggle_flag_frame [recDay0, recNever] 0 true recDay0 rfl).2.1⟩
